import Mathlib

/-!
# Verification of the chat backend (`src/backend/app.py`)

A shallow embedding of the conversational backend: credential store
(`register`, `login`, `save_user_history`), token issuance (`jwt.encode`
inside `login`), the in-memory per-user conversation state (`user_memory`),
and the generation gateway (`handle_message`, `call_cohere_api`).

Modelling conventions:
* The Postgres table `users` is a `List DbRow`; `SELECT ... WHERE email = %s`
  is `findRow`, first match wins (emails are unique by schema, but the model
  does not assume it).  The SERIAL `id` is assigned as `db.length + 1`.
* A reachable/unreachable database connection (`get_db_connection` returning
  a connection or `None`) is a Boolean `available` parameter; every handler
  branches on it exactly where the Python code checks `conn is not None`.
* The Flask `request.json` dictionary is a `List (String × String)`
  association list; `data['k']` is `jsonGet`, whose `none` case corresponds
  to the uncaught `KeyError` (mapped by Flask to a 500 internal error,
  `HandlerOutcome.keyError`); `request.json.get('k')` is `jsonGet` used as an
  `Option`.  A handler that falls off the end of the function body returns
  Python `None`, which Flask rejects as an invalid response (a 500):
  `HandlerOutcome.noResponse`.
* `user_memory` (a Python dict keyed by the possibly-absent email, so the key
  type is `Option String`) is an association list `Mem` with dict-style
  insert (replace in place or append) and in-place entry mutation.
* `werkzeug.generate_password_hash` / `check_password_hash` are abstract
  parameters `hashfn : String → String` and `checkpw : String → String → Bool`
  (stored hash first, as in the source).
* The HMAC-SHA256 signature of `jwt.encode` is an abstract parameter
  `mac : String → String → Nat → String` (secret, subject, expiry ↦ tag);
  times are seconds as `Nat`.
* The Cohere client `co.generate` is an abstract parameter
  `generate : String → Except Unit (List String)`: an `Except.error` is any
  raised exception (timeout, transport, malformed response), an `Except.ok`
  is the list of generation texts; `response.generations[0]` on an empty
  list raises, which the `except` block also catches.
-/

/-- One row of the `users` table: `id SERIAL, email, password (hash),
history, last_question`.  All inserts write `""` (never SQL NULL) into
`history` and `last_question`. -/
structure DbRow where
  id : Nat
  email : String
  password : String
  history : String
  last_question : String
deriving Repr, DecidableEq

/-- `SELECT * FROM users WHERE email = %s` followed by `fetchone()`:
the first row whose `email` column equals the parameter. -/
def findRow : List DbRow → String → Option DbRow
  | [], _ => none
  | r :: rest, e => if r.email = e then some r else findRow rest e

/-- The JWT payload produced by `jwt.encode({'user': email, 'exp': ...},
SECRET_KEY, algorithm="HS256")` together with its signature tag. -/
structure SignedToken where
  user : String
  exp : Nat
  sig : String
deriving Repr, DecidableEq

/-- Outcome of an HTTP handler as Flask sees it.  `keyError` is an uncaught
`KeyError` escaping the handler (Flask answers 500 `Internal server error`);
`noResponse` is a handler returning Python `None` (Flask also answers 500). -/
inductive HandlerOutcome where
  | response (status : Nat) (body : String)
  | loginSuccess (status : Nat) (token : SignedToken) (email : String)
  | keyError (key : String)
  | noResponse
deriving Repr, DecidableEq

/-- `data['k']` / `data.get('k')` on the parsed JSON body. -/
def jsonGet : List (String × String) → String → Option String
  | [], _ => none
  | (k, v) :: rest, key => if k = key then some v else jsonGet rest key

/-- The HTTP status Flask ultimately sends for a handler outcome. -/
def flaskStatus : HandlerOutcome → Nat
  | .response s _ => s
  | .loginSuccess s _ _ => s
  | .keyError _ => 500
  | .noResponse => 500

/-- Core of the `register` route, after `data['password']` and
`data['email']` have been read.  It hashes first (the source hashes before
touching the store), then, when the connection is available, looks the email
up and either rejects the duplicate or inserts `(email, hash, "", "")`.
When `get_db_connection()` returned `None` the whole `if conn is not None`
block is skipped and the handler still answers 201. -/
def register (hashfn : String → String) (available : Bool) (db : List DbRow)
    (email pw : String) : List DbRow × HandlerOutcome :=
  let hashed_password := hashfn pw
  if available then
    match findRow db email with
    | some _ => (db, .response 400 "User already exists")
    | none =>
        (db ++ [⟨db.length + 1, email, hashed_password, "", ""⟩],
         .response 201 "User registered successfully")
  else (db, .response 201 "User registered successfully")

/-- The `register` route including the body parse: `data['password']` is
evaluated first (inside `generate_password_hash`), then `data['email']`;
a missing key raises `KeyError`. -/
def registerRoute (hashfn : String → String) (available : Bool)
    (db : List DbRow) (body : List (String × String)) :
    List DbRow × HandlerOutcome :=
  match jsonGet body "password" with
  | none => (db, .keyError "password")
  | some pw =>
    match jsonGet body "email" with
    | none => (db, .keyError "email")
    | some email => register hashfn available db email pw

/-- `jwt.encode({'user': email, 'exp': utcnow() + timedelta(hours=1)},
SECRET_KEY, algorithm="HS256")`, issued at time `T` (seconds). -/
def issueToken (mac : String → String → Nat → String) (secret email : String)
    (T : Nat) : SignedToken :=
  ⟨email, T + 3600, mac secret email (T + 3600)⟩

/-- Core of the `login` route at issue time `T`.  With the store available it
fetches the row by email; on `check_password_hash` success it answers 200
with a fresh token and the row's email column (`user[1]`), otherwise 401.
With the store unavailable the `if conn is not None` block is skipped and
the function body ends without a `return`: Python returns `None`
(`HandlerOutcome.noResponse`). -/
def login (checkpw : String → String → Bool)
    (mac : String → String → Nat → String) (secret : String)
    (available : Bool) (db : List DbRow) (email pw : String) (T : Nat) :
    HandlerOutcome :=
  if available then
    match findRow db email with
    | some user =>
        if checkpw user.password pw then
          .loginSuccess 200 (issueToken mac secret email T) user.email
        else .response 401 "Invalid credentials"
    | none => .response 401 "Invalid credentials"
  else .noResponse

/-- The `login` route including the body parse: `data['email']` is read
first, then `data['password']`; a missing key raises `KeyError`. -/
def loginRoute (checkpw : String → String → Bool)
    (mac : String → String → Nat → String) (secret : String)
    (available : Bool) (db : List DbRow) (body : List (String × String))
    (T : Nat) : HandlerOutcome :=
  match jsonGet body "email" with
  | none => .keyError "email"
  | some email =>
    match jsonGet body "password" with
    | none => .keyError "password"
    | some pw => login checkpw mac secret available db email pw T

/-- `verify(token) -> Result<email, Expired | Invalid>` error cases. -/
inductive TokenError where
  | Invalid
  | Expired
deriving Repr, DecidableEq

/-- Modelled from the spec: token verification is not implemented anywhere
under `src/` (the repository only issues tokens and never checks them).
Per §4.2 of the spec, `verify` "fails `Invalid` on signature mismatch or
malformed structure; fails `Expired` if current time ≥ stored expiry;
otherwise returns the subject". -/
def verifyToken (mac : String → String → Nat → String) (secret : String)
    (tok : SignedToken) (now : Nat) : Except TokenError String :=
  if tok.sig ≠ mac secret tok.user tok.exp then .error .Invalid
  else if tok.exp ≤ now then .error .Expired
  else .ok tok.user

/-- Python's `needle in haystack` on character lists: some tail of
`haystack` starts with `needle`. -/
def containsSub (needle : List Char) : List Char → Bool
  | [] => decide (needle = [])
  | c :: rest => needle.isPrefixOf (c :: rest) || containsSub needle rest

/-- `user_message.lower()` (ASCII case folding, which covers every character
the code compares against). -/
def pyLower (s : String) : String := ⟨s.data.map Char.toLower⟩

/-- `"hello" in user_message.lower()`. -/
def containsHello (s : String) : Bool :=
  containsSub "hello".data (pyLower s).data

/-- `call_cohere_api`: calls `co.generate` inside `try`; on success returns
`response.generations[0].text.strip()` (an empty generations list raises
`IndexError`, caught by the same `except`), and any exception yields the
fixed fallback string. -/
def call_cohere_api (generate : String → Except Unit (List String))
    (user_message : String) : String :=
  match generate user_message with
  | .ok [] => "Sorry, I encountered an error."
  | .ok (t :: _) => t.trim
  | .error _ => "Sorry, I encountered an error."

/-- `handle_message`: greeting short-circuit, else the Cohere call.  The
`user_email` argument is accepted and ignored, as in the source. -/
def handle_message (generate : String → Except Unit (List String))
    (user_email : Option String) (user_message : String) : String :=
  if containsHello user_message then "Hi there! How can I help you today?"
  else call_cohere_api generate user_message

/-- One value of the `user_memory` dict:
`{"name": None, "preferences": [], "history": [], "last_question": None}`. -/
structure MemEntry where
  name : Option String
  preferences : List String
  history : List String
  last_question : Option String
deriving Repr, DecidableEq

/-- The fresh entry created on first access for an email. -/
def MemEntry.fresh : MemEntry :=
  ⟨none, [], [], none⟩

/-- `user_memory`: a dict keyed by `request.json.get("email")`, which may be
Python `None`, hence the key type `Option String`. -/
abbrev Mem := List (Option String × MemEntry)

/-- Dict lookup (`user_memory[k]` when present / `k in user_memory`). -/
def lookupMem : Mem → Option String → Option MemEntry
  | [], _ => none
  | (k, v) :: rest, key => if k = key then some v else lookupMem rest key

/-- `k in user_memory`. -/
def containsKeyMem (m : Mem) (k : Option String) : Bool :=
  (lookupMem m k).isSome

/-- Dict assignment `user_memory[k] = v`: replace in place, or append. -/
def insertMem : Mem → Option String → MemEntry → Mem
  | [], key, v => [(key, v)]
  | (k, w) :: rest, key, v =>
      if k = key then (k, v) :: rest else (k, w) :: insertMem rest key v

/-- In-place mutation of the entry at one key
(`user_memory[k]["field"] = ...`, `user_memory[k]["history"].append(...)`). -/
def updateMem : Mem → Option String → (MemEntry → MemEntry) → Mem
  | [], _, _ => []
  | (k, v) :: rest, key, f =>
      if k = key then (k, f v) :: updateMem rest key f
      else (k, v) :: updateMem rest key f

/-- The string `f"User: {question}\nBot: {response}"` appended to the durable
history by `save_user_history`. -/
def histEntry (question response : String) : String :=
  "User: " ++ question ++ "\n" ++ "Bot: " ++ response

/-- `save_user_history`: with a reachable store, runs
`UPDATE users SET history = history || %s WHERE email = %s`.  When the
client sent no email the bound parameter is SQL NULL and `email = NULL`
holds for no row.  With the store unreachable (`conn is None`) nothing
happens. -/
def save_user_history (available : Bool) (db : List DbRow)
    (email : Option String) (question response : String) : List DbRow :=
  if available then
    db.map fun row =>
      if some row.email = email then
        { row with history := row.history ++ histEntry question response }
      else row
  else db

/-- What the `chat` route returns in its JSON body. -/
inductive ChatBody where
  | err (s : String)
  | resp (s : String)
deriving Repr, DecidableEq

/-- Result of one `chat` request: the new in-memory state, the new durable
table, and the HTTP response. -/
structure ChatResult where
  mem : Mem
  db : List DbRow
  status : Nat
  body : ChatBody
deriving Repr, DecidableEq

/-- `not user_message` in Python: `None` and `""` are falsy. -/
def providedMsg : Option String → Bool
  | none => false
  | some s => !s.isEmpty

/-- The `chat` route.  Rejects a missing/empty message with 400; otherwise
creates the per-email entry if absent, sets `last_question`, appends the
user turn, computes the reply, appends the bot turn, best-effort persists
the exchange, and answers 200 with the reply. -/
def chat (generate : String → Except Unit (List String)) (available : Bool)
    (mem : Mem) (db : List DbRow) (user_email : Option String)
    (user_message : Option String) : ChatResult :=
  match user_message with
  | none => ⟨mem, db, 400, .err "No message provided"⟩
  | some msg =>
    if msg.isEmpty then ⟨mem, db, 400, .err "No message provided"⟩
    else
      let mem1 :=
        if containsKeyMem mem user_email then mem
        else insertMem mem user_email MemEntry.fresh
      let mem2 := updateMem mem1 user_email fun e =>
        { e with last_question := some msg,
                 history := e.history ++ ["User: " ++ msg] }
      let response := handle_message generate user_email msg
      let mem3 := updateMem mem2 user_email fun e =>
        { e with history := e.history ++ ["Bot: " ++ response] }
      let db' := save_user_history available db user_email msg response
      ⟨mem3, db', 200, .resp response⟩

/-- One request to the `chat` route, for whole-process runs. -/
structure ChatReq where
  email : Option String
  message : Option String
deriving Repr, DecidableEq

/-- A sequence of sequential `chat` requests against one process. -/
def runChats (generate : String → Except Unit (List String))
    (available : Bool) : List ChatReq → Mem × List DbRow → Mem × List DbRow
  | [], st => st
  | r :: rest, (mem, db) =>
      let c := chat generate available mem db r.email r.message
      runChats generate available rest (c.mem, c.db)

/-- The `history` column of the (first) row stored for an email. -/
def dbHistory (db : List DbRow) (e : String) : Option String :=
  (findRow db e).map DbRow.history

/-- A sequence of sequential durable appends for one email. -/
def runAppends (e : String) : List (String × String) → List DbRow → List DbRow
  | [], db => db
  | (q, r) :: rest, db =>
      runAppends e rest (save_user_history true db (some e) q r)

/-- Concatenation of a list of strings with no separator. -/
def concatAll : List String → String
  | [] => ""
  | s :: rest => s ++ concatAll rest

/-! ## Helper lemmas -/

theorem findRow_append (db1 db2 : List DbRow) (e : String)
    (h : findRow db1 e = none) :
    findRow (db1 ++ db2) e = findRow db2 e := by
  induction db1 with
  | nil => simp
  | cons r rest ih =>
      by_cases hr : r.email = e
      · simp [findRow, hr] at h
      · simp only [findRow, hr, if_false, List.cons_append, ite_false] at h ⊢
        exact ih h

theorem lookupMem_insert_self (m : Mem) (k : Option String) (v : MemEntry) :
    lookupMem (insertMem m k v) k = some v := by
  induction m with
  | nil => simp [insertMem, lookupMem]
  | cons kv rest ih =>
      obtain ⟨k', w⟩ := kv
      by_cases h : k' = k
      · simp [insertMem, h, lookupMem]
      · simp [insertMem, h, lookupMem, ih]

theorem lookupMem_update (m : Mem) (k : Option String) (f : MemEntry → MemEntry) :
    lookupMem (updateMem m k f) k = (lookupMem m k).map f := by
  induction m with
  | nil => simp [updateMem, lookupMem]
  | cons kv rest ih =>
      obtain ⟨k', w⟩ := kv
      by_cases h : k' = k <;> simp [updateMem, lookupMem, h, ih]

theorem containsKeyMem_insert (m : Mem) (k : Option String) (v : MemEntry)
    (k' : Option String) :
    containsKeyMem (insertMem m k v) k' =
      (containsKeyMem m k' || decide (k = k')) := by
  induction m with
  | nil =>
      by_cases h : k = k' <;> simp [insertMem, containsKeyMem, lookupMem, h]
  | cons kv rest ih =>
      obtain ⟨k0, w⟩ := kv
      by_cases h0 : k0 = k <;> by_cases h1 : k0 = k' <;>
        simp_all [insertMem, containsKeyMem, lookupMem]

theorem containsKeyMem_update (m : Mem) (k : Option String)
    (f : MemEntry → MemEntry) (k' : Option String) :
    containsKeyMem (updateMem m k f) k' = containsKeyMem m k' := by
  induction m with
  | nil => simp [updateMem, containsKeyMem, lookupMem]
  | cons kv rest ih =>
      obtain ⟨k0, w⟩ := kv
      by_cases h0 : k0 = k <;> by_cases h1 : k0 = k' <;>
        simp_all [updateMem, containsKeyMem, lookupMem]

theorem chat_reject (g : String → Except Unit (List String)) (avail : Bool)
    (mem : Mem) (db : List DbRow) (e : Option String) (m : Option String)
    (h : providedMsg m = false) :
    chat g avail mem db e m = ⟨mem, db, 400, .err "No message provided"⟩ := by
  cases m with
  | none => rfl
  | some s =>
      simp only [providedMsg, Bool.not_eq_false'] at h
      simp [chat, h]

theorem chat_components (g : String → Except Unit (List String)) (avail : Bool)
    (mem : Mem) (db : List DbRow) (e : Option String) (msg : String)
    (h : msg.isEmpty = false) :
    (chat g avail mem db e (some msg)).status = 200 ∧
    (chat g avail mem db e (some msg)).body = .resp (handle_message g e msg) ∧
    (chat g avail mem db e (some msg)).db =
      save_user_history avail db e msg (handle_message g e msg) := by
  refine ⟨?_, ?_, ?_⟩ <;> simp [chat, h]

theorem chat_mem_lookup (g : String → Except Unit (List String)) (avail : Bool)
    (mem : Mem) (db : List DbRow) (e : Option String) (msg : String)
    (h : msg.isEmpty = false) :
    lookupMem (chat g avail mem db e (some msg)).mem e =
      some { name := ((lookupMem mem e).getD MemEntry.fresh).name,
             preferences := ((lookupMem mem e).getD MemEntry.fresh).preferences,
             history := ((lookupMem mem e).getD MemEntry.fresh).history ++
               ["User: " ++ msg, "Bot: " ++ handle_message g e msg],
             last_question := some msg } := by
  cases hc : lookupMem mem e with
  | none =>
      have hck : containsKeyMem mem e = false := by
        simp [containsKeyMem, hc]
      simp [chat, h, hck, lookupMem_update, lookupMem_insert_self, hc,
        MemEntry.fresh]
  | some cur =>
      have hck : containsKeyMem mem e = true := by
        simp [containsKeyMem, hc]
      simp [chat, h, hck, lookupMem_update, hc]

theorem containsKey_chat (g : String → Except Unit (List String)) (avail : Bool)
    (mem : Mem) (db : List DbRow) (e : Option String) (m : Option String)
    (k : Option String) :
    containsKeyMem (chat g avail mem db e m).mem k =
      (containsKeyMem mem k || (decide (e = k) && providedMsg m)) := by
  cases m with
  | none => simp [chat, providedMsg]
  | some msg =>
      by_cases h : msg.isEmpty
      · simp [chat, h, providedMsg]
      · simp only [Bool.not_eq_true] at h
        simp only [chat, h, Bool.false_eq_true, if_false, providedMsg,
          Bool.not_false, Bool.and_true]
        rw [containsKeyMem_update, containsKeyMem_update]
        by_cases hc : containsKeyMem mem e
        · simp only [hc, if_true]
          by_cases he : e = k
          · subst he; simp [hc]
          · simp [he]
        · simp only [Bool.not_eq_true] at hc
          simp only [hc, Bool.false_eq_true, if_false]
          rw [containsKeyMem_insert]

theorem containsKey_runChats (g : String → Except Unit (List String))
    (avail : Bool) (reqs : List ChatReq) :
    ∀ mem db k, containsKeyMem (runChats g avail reqs (mem, db)).1 k =
      (containsKeyMem mem k ||
        reqs.any fun r => decide (r.email = k) && providedMsg r.message) := by
  induction reqs with
  | nil => intro mem db k; simp [runChats]
  | cons r rest ih =>
      intro mem db k
      simp only [runChats]
      rw [ih, containsKey_chat]
      simp [Bool.or_assoc]

theorem runChats_mem_db_indep (g : String → Except Unit (List String))
    (avail : Bool) (reqs : List ChatReq) :
    ∀ mem db db',
      (runChats g avail reqs (mem, db)).1 = (runChats g avail reqs (mem, db')).1 := by
  induction reqs with
  | nil => intros; rfl
  | cons r rest ih =>
      intro mem db db'
      simp only [runChats]
      have hm : (chat g avail mem db r.email r.message).mem
          = (chat g avail mem db' r.email r.message).mem := by
        cases r.message with
        | none => rfl
        | some msg => by_cases h : msg.isEmpty <;> simp [chat, h]
      rw [hm]
      exact ih _ _ _

theorem save_no_match (db : List DbRow) (e : String) (q r : String)
    (h : findRow db e = none) :
    save_user_history true db (some e) q r = db := by
  induction db with
  | nil => rfl
  | cons row rest ih =>
      rw [findRow] at h
      by_cases hr : row.email = e
      · rw [if_pos hr] at h; exact absurd h (by simp)
      · rw [if_neg hr] at h
        have h2 := ih h
        simp only [save_user_history, if_true, List.map_cons] at h2 ⊢
        rw [h2]
        simp [hr]

theorem save_none (avail : Bool) (db : List DbRow) (q r : String) :
    save_user_history avail db none q r = db := by
  cases avail <;> simp [save_user_history]

theorem dbHistory_save (db : List DbRow) (e : String) (q r : String) :
    dbHistory (save_user_history true db (some e) q r) e =
      (dbHistory db e).map (· ++ histEntry q r) := by
  induction db with
  | nil => rfl
  | cons row rest ih =>
      by_cases hr : row.email = e
      · simp [dbHistory, save_user_history, findRow, hr]
      · simp only [dbHistory, save_user_history, if_true, List.map_cons,
          findRow, hr, Option.some.injEq, ite_false, if_false] at ih ⊢
        exact ih

/-! ## Claim theorems -/

/-- C2: registering the same email twice with the store available: the first
call inserts the row and answers 201, the second answers 400
"User already exists" and leaves the table — in particular the stored
password hash of the first call — unchanged. -/
theorem register_twice (hashfn : String → String) (db : List DbRow)
    (email pw1 pw2 : String) (h : findRow db email = none) :
    (register hashfn true db email pw1).2 =
      .response 201 "User registered successfully" ∧
    (register hashfn true (register hashfn true db email pw1).1 email pw2).2 =
      .response 400 "User already exists" ∧
    (register hashfn true (register hashfn true db email pw1).1 email pw2).1 =
      (register hashfn true db email pw1).1 ∧
    (findRow (register hashfn true
        (register hashfn true db email pw1).1 email pw2).1 email).map
      DbRow.password = some (hashfn pw1) := by
  have h1 : findRow (db ++ [⟨db.length + 1, email, hashfn pw1, "", ""⟩]) email
      = some ⟨db.length + 1, email, hashfn pw1, "", ""⟩ := by
    rw [findRow_append db _ email h]
    simp [findRow]
  refine ⟨?_, ?_, ?_, ?_⟩ <;> simp [register, h, h1]

/-- C2 witness: the two-registration scenario evaluated on a concrete empty
table with a concrete hash function. -/
theorem register_twice_witness :
    findRow [] "a@b" = none ∧
    ((register (fun s => "h" ++ s) true [] "a@b" "p1").2 =
        .response 201 "User registered successfully" ∧
      (register (fun s => "h" ++ s) true
          (register (fun s => "h" ++ s) true [] "a@b" "p1").1 "a@b" "p2").2 =
        .response 400 "User already exists" ∧
      (register (fun s => "h" ++ s) true
          (register (fun s => "h" ++ s) true [] "a@b" "p1").1 "a@b" "p2").1 =
        (register (fun s => "h" ++ s) true [] "a@b" "p1").1 ∧
      (findRow (register (fun s => "h" ++ s) true
          (register (fun s => "h" ++ s) true [] "a@b" "p1").1 "a@b" "p2").1
        "a@b").map DbRow.password = some ((fun s => "h" ++ s) "p1")) :=
  ⟨rfl, register_twice (fun s => "h" ++ s) [] "a@b" "p1" "p2" rfl⟩

/-- C3: a message that case-insensitively contains "hello" makes
`handle_message` return the fixed greeting, for every possible generation
backend — so the external backend is never consulted (the result does not
depend on it). -/
theorem greeting_short_circuit (msg : String) (h : containsHello msg = true) :
    ∀ g g' : String → Except Unit (List String), ∀ e : Option String,
      handle_message g e msg = "Hi there! How can I help you today?" ∧
      handle_message g e msg = handle_message g' e msg := by
  intro g g' e
  constructor <;> simp [handle_message, h]

/-- C3 witness: `"Hello there"` answered with the fixed greeting even when
the backend would fail. -/
theorem greeting_short_circuit_witness :
    containsHello "Hello there" = true ∧
    handle_message (fun _ => .error ()) none "Hello there" =
      "Hi there! How can I help you today?" :=
  ⟨by decide,
   (greeting_short_circuit "Hello there" (by decide)
      (fun _ => .error ()) (fun _ => .ok []) none).1⟩

/-- C4: `call_cohere_api` never fails observably: any backend exception
yields the fixed fallback string, an empty generations list (the
`generations[0]` `IndexError`) also yields the fallback, a successful
generation yields the trimmed completion, and a chat request with a
non-empty message always answers 200 with the gateway reply. -/
theorem gateway_fail_soft (g : String → Except Unit (List String))
    (msg : String) :
    (∀ err, g msg = .error err →
      call_cohere_api g msg = "Sorry, I encountered an error.") ∧
    (g msg = .ok [] →
      call_cohere_api g msg = "Sorry, I encountered an error.") ∧
    (∀ t rest, g msg = .ok (t :: rest) → call_cohere_api g msg = t.trim) ∧
    (∀ avail mem db e, msg.isEmpty = false →
      (chat g avail mem db e (some msg)).status = 200 ∧
      (chat g avail mem db e (some msg)).body =
        .resp (handle_message g e msg)) := by
  refine ⟨?_, ?_, ?_, ?_⟩
  · intro err h; simp [call_cohere_api, h]
  · intro h; simp [call_cohere_api, h]
  · intro t rest h; simp [call_cohere_api, h]
  · intro avail mem db e h
    exact ⟨(chat_components g avail mem db e msg h).1,
           (chat_components g avail mem db e msg h).2.1⟩

/-- C4 witness: a backend that raises (e.g. a timeout) still produces the
fallback string and a 200 chat response. -/
theorem gateway_fail_soft_witness :
    call_cohere_api (fun _ => .error ()) "What is Lean?" =
      "Sorry, I encountered an error." ∧
    (chat (fun _ => .error ()) true [] [] (some "a")
      (some "What is Lean?")).status = 200 :=
  ⟨(gateway_fail_soft (fun _ => .error ()) "What is Lean?").1 () rfl,
   ((gateway_fail_soft (fun _ => .error ()) "What is Lean?").2.2.2
      true [] [] (some "a") rfl).1⟩

/-- C5: starting with no in-memory state for an email, two sequential chat
calls with non-empty messages `m1` then `m2` leave exactly the four history
entries `User: m1, Bot: r1, User: m2, Bot: r2` in that order and
`last_question = m2`; after the first turn alone the state already shows
`last_question = m1` with the user entry before the bot entry. -/
theorem chat_two_turns (g : String → Except Unit (List String)) (avail : Bool)
    (mem : Mem) (db : List DbRow) (email m1 m2 : String)
    (h0 : lookupMem mem (some email) = none)
    (h1 : m1.isEmpty = false) (h2 : m2.isEmpty = false) :
    lookupMem (chat g avail mem db (some email) (some m1)).mem (some email) =
      some ⟨none, [],
        ["User: " ++ m1, "Bot: " ++ handle_message g (some email) m1],
        some m1⟩ ∧
    lookupMem (chat g avail
        (chat g avail mem db (some email) (some m1)).mem
        (chat g avail mem db (some email) (some m1)).db
        (some email) (some m2)).mem (some email) =
      some ⟨none, [],
        ["User: " ++ m1, "Bot: " ++ handle_message g (some email) m1,
         "User: " ++ m2, "Bot: " ++ handle_message g (some email) m2],
        some m2⟩ := by
  have L1 := chat_mem_lookup g avail mem db (some email) m1 h1
  rw [h0] at L1
  simp only [Option.getD_none, MemEntry.fresh, List.nil_append] at L1
  refine ⟨L1, ?_⟩
  have L2 := chat_mem_lookup g avail
    (chat g avail mem db (some email) (some m1)).mem
    (chat g avail mem db (some email) (some m1)).db (some email) m2 h2
  rw [L1] at L2
  simpa using L2

/-- C5 witness: two concrete greeting turns from a fresh process. -/
theorem chat_two_turns_witness :
    lookupMem (chat (fun _ => .error ()) true
        (chat (fun _ => .error ()) true [] [] (some "u") (some "Hello")).mem
        (chat (fun _ => .error ()) true [] [] (some "u") (some "Hello")).db
        (some "u") (some "hello again")).mem (some "u") =
      some ⟨none, [],
        ["User: Hello", "Bot: Hi there! How can I help you today?",
         "User: hello again", "Bot: Hi there! How can I help you today?"],
        some "hello again"⟩ :=
  (chat_two_turns (fun _ => .error ()) true [] [] "u" "Hello" "hello again"
    rfl rfl rfl).2

/-- C6: a successful login at time `T` issues a token whose subject is the
email, whose expiry is `T + 3600` seconds and whose signature is the MAC of
those claims under the process secret; that token verifies at `T + 1` and is
`Expired` at `T + 3601`. -/
theorem login_token_lifecycle (checkpw : String → String → Bool)
    (mac : String → String → Nat → String) (secret : String)
    (db : List DbRow) (email pw : String) (T : Nat) (tok : SignedToken)
    (e' : String)
    (h : login checkpw mac secret true db email pw T =
      .loginSuccess 200 tok e') :
    tok.user = email ∧ tok.exp = T + 3600 ∧
    tok.sig = mac secret email (T + 3600) ∧
    verifyToken mac secret tok (T + 1) = .ok email ∧
    verifyToken mac secret tok (T + 3601) = .error .Expired := by
  simp only [login, if_true] at h
  cases hf : findRow db email with
  | none => rw [hf] at h; simp at h
  | some user =>
      rw [hf] at h
      by_cases hc : checkpw user.password pw
      · simp only [hc, if_true, HandlerOutcome.loginSuccess.injEq, true_and]
          at h
        obtain ⟨htok, -⟩ := h
        subst htok
        refine ⟨rfl, rfl, rfl, ?_, ?_⟩
        · simp only [verifyToken, issueToken, ne_eq, not_true_eq_false,
            if_false, ite_false, ite_eq_right_iff]
          intro hle
          exact absurd hle (by omega)
        · simp only [verifyToken, issueToken, ne_eq, not_true_eq_false,
            if_false, ite_false]
          rw [if_pos (by omega)]
      · simp [hc] at h

/-- C6 witness: a concrete successful login whose token verifies one second
after issue. -/
theorem login_token_lifecycle_witness :
    verifyToken (fun s u n => s ++ u ++ toString n) "sec"
      (issueToken (fun s u n => s ++ u ++ toString n) "sec" "a" 0) 1 =
      .ok "a" :=
  (login_token_lifecycle (fun stored p => stored == p)
    (fun s u n => s ++ u ++ toString n) "sec" [⟨1, "a", "p", "", ""⟩]
    "a" "p" 0 (issueToken (fun s u n => s ++ u ++ toString n) "sec" "a" 0)
    "a" rfl).2.2.2.1

/-- C7: in-memory state exists for a key iff some chat request in the run
provided that key together with a non-empty message; a missing/empty message
is rejected with 400 before any state is touched; and the in-memory state
after a run is independent of the initial durable table (never seeded from
durable history). -/
theorem memory_iff_turn (g : String → Except Unit (List String))
    (avail : Bool) (reqs : List ChatReq) (db0 db1 : List DbRow)
    (k : Option String) :
    (containsKeyMem (runChats g avail reqs ([], db0)).1 k = true ↔
      ∃ r ∈ reqs, r.email = k ∧ providedMsg r.message = true) ∧
    (∀ mem db e m, providedMsg m = false →
      chat g avail mem db e m = ⟨mem, db, 400, .err "No message provided"⟩) ∧
    (runChats g avail reqs ([], db0)).1 = (runChats g avail reqs ([], db1)).1 := by
  refine ⟨?_, ?_, runChats_mem_db_indep g avail reqs [] db0 db1⟩
  · rw [containsKey_runChats]
    simp only [containsKeyMem, lookupMem, Option.isSome_none,
      Bool.false_or, List.any_eq_true, Bool.and_eq_true, decide_eq_true_eq]
  · intro mem db e m h
    exact chat_reject g avail mem db e m h

/-- C7 witness: one greeting request creates state for its email, applied
with two different initial durable tables. -/
theorem memory_iff_turn_witness :
    containsKeyMem
      (runChats (fun _ => .error ()) true [⟨some "u", some "Hello"⟩]
        ([], [])).1 (some "u") = true :=
  (memory_iff_turn (fun _ => .error ()) true [⟨some "u", some "Hello"⟩]
    [] [⟨1, "u", "h", "", ""⟩] (some "u")).1.mpr
    ⟨⟨some "u", some "Hello"⟩, by simp, rfl, rfl⟩

/-- C8: after any number of sequential durable appends for one email, the
stored history equals the starting history followed by the concatenation of
the appended entries in call order, each entry being
`"User: " ++ q ++ "\n" ++ "Bot: " ++ r` with no separator in between; from
the empty history `register` creates, it is exactly that concatenation. -/
theorem appendHistory_concat (db : List DbRow) (e : String)
    (ps : List (String × String)) (h0 : String)
    (h : dbHistory db e = some h0) :
    dbHistory (runAppends e ps db) e =
      some (h0 ++ concatAll (ps.map fun p => histEntry p.1 p.2)) ∧
    (h0 = "" → dbHistory (runAppends e ps db) e =
      some (concatAll (ps.map fun p => histEntry p.1 p.2))) := by
  have main : ∀ qs : List (String × String), ∀ d : List DbRow, ∀ s : String,
      dbHistory d e = some s →
      dbHistory (runAppends e qs d) e =
        some (s ++ concatAll (qs.map fun p => histEntry p.1 p.2)) := by
    intro qs
    induction qs with
    | nil =>
        intro d s hs
        simpa [runAppends, concatAll, String.append_empty] using hs
    | cons p rest ih =>
        intro d s hs
        obtain ⟨q, r⟩ := p
        simp only [runAppends]
        have h1 : dbHistory (save_user_history true d (some e) q r) e =
            some (s ++ histEntry q r) := by
          rw [dbHistory_save, hs]; rfl
        rw [ih _ _ h1]
        simp [concatAll, String.append_assoc]
  refine ⟨main ps db h0 h, ?_⟩
  intro he
  subst he
  have := main ps db "" h
  rwa [String.empty_append] at this

/-- C8 witness: two appends onto the empty history a registration creates. -/
theorem appendHistory_concat_witness :
    dbHistory
      (runAppends "u" [("q1", "r1"), ("q2", "r2")] [⟨1, "u", "h", "", ""⟩])
      "u" = some "User: q1\nBot: r1User: q2\nBot: r2" :=
  (appendHistory_concat [⟨1, "u", "h", "", ""⟩] "u"
    [("q1", "r1"), ("q2", "r2")] "" rfl).2 rfl

/-- C9: a register body without the `password` key, or a login body without
the `email` key, makes the handler raise an uncaught `KeyError` (the field
is indexed directly, with no validation), so Flask answers 500 — not a 400
validation error. -/
theorem missing_key_internal_fault (hashfn : String → String)
    (checkpw : String → String → Bool)
    (mac : String → String → Nat → String) (secret : String)
    (available : Bool) (db : List DbRow) (T : Nat)
    (body1 body2 : List (String × String))
    (hp : jsonGet body1 "password" = none)
    (he : jsonGet body2 "email" = none) :
    registerRoute hashfn available db body1 = (db, .keyError "password") ∧
    flaskStatus (registerRoute hashfn available db body1).2 = 500 ∧
    loginRoute checkpw mac secret available db body2 T = .keyError "email" ∧
    flaskStatus (loginRoute checkpw mac secret available db body2 T) = 500 := by
  refine ⟨?_, ?_, ?_, ?_⟩ <;> simp [registerRoute, loginRoute, hp, he,
    flaskStatus]

/-- C9 witness: concrete bodies missing the required keys. -/
theorem missing_key_internal_fault_witness :
    registerRoute (fun s => s) true [] [("email", "a")] =
      ([], .keyError "password") ∧
    loginRoute (fun _ _ => true) (fun _ _ _ => "m") "sec" true []
      [("password", "p")] 0 = .keyError "email" :=
  ⟨(missing_key_internal_fault (fun s => s) (fun _ _ => true)
      (fun _ _ _ => "m") "sec" true [] 0 [("email", "a")] [("password", "p")]
      rfl rfl).1,
   (missing_key_internal_fault (fun s => s) (fun _ _ => true)
      (fun _ _ _ => "m") "sec" true [] 0 [("email", "a")] [("password", "p")]
      rfl rfl).2.2.1⟩

/-- C10: the durable write of a chat exchange only appends to the `history`
column of rows whose email matches the client-supplied email — `id`,
`email`, `password` and `last_question` of every row, and every row for a
different email, are untouched, and the table keeps its length; when no row
matches (in particular when the client sent no email at all, so the SQL
comparison is against NULL) the table is unchanged and chat still answers
200 with its reply. -/
theorem save_history_frame (db : List DbRow) (e : String) (q r : String) :
    (save_user_history true db (some e) q r).length = db.length ∧
    (∀ (i : Nat) (row : DbRow), db[i]? = some row →
      ∃ row', (save_user_history true db (some e) q r)[i]? = some row' ∧
        row'.id = row.id ∧ row'.email = row.email ∧
        row'.password = row.password ∧
        row'.last_question = row.last_question ∧
        row'.history =
          (if row.email = e then row.history ++ histEntry q r
           else row.history)) ∧
    (findRow db e = none → save_user_history true db (some e) q r = db) ∧
    (∀ q' r', save_user_history true db none q' r' = db) ∧
    (∀ g mem m, m.isEmpty = false →
      (chat g true mem db none (some m)).db = db ∧
      (chat g true mem db none (some m)).status = 200 ∧
      (chat g true mem db none (some m)).body =
        ChatBody.resp (handle_message g none m)) := by
  refine ⟨?_, ?_, save_no_match db e q r, fun q' r' => save_none true db q' r',
    ?_⟩
  · simp [save_user_history]
  · intro i row hrow
    refine ⟨if row.email = e then
        { row with history := row.history ++ histEntry q r } else row, ?_⟩
    simp only [save_user_history, if_true, List.getElem?_map, hrow,
      Option.map_some']
    by_cases hr : row.email = e <;> simp [hr]
  · intro g mem m hm
    have hc := chat_components g true mem db none m hm
    exact ⟨by rw [hc.2.2, save_none], hc.1, hc.2.1⟩

/-- C10 witness: a two-row table where only the matching row's history
changes, and a chat without an email leaves the table as it was. -/
theorem save_history_frame_witness :
    save_user_history true [⟨1, "u", "h", "", ""⟩, ⟨2, "v", "h2", "x", ""⟩]
      none "q" "r" = [⟨1, "u", "h", "", ""⟩, ⟨2, "v", "h2", "x", ""⟩] ∧
    (findRow [⟨1, "u", "h", "", ""⟩] "w" = none →
      save_user_history true [⟨1, "u", "h", "", ""⟩] (some "w") "q" "r" =
        [⟨1, "u", "h", "", ""⟩]) :=
  ⟨(save_history_frame [⟨1, "u", "h", "", ""⟩, ⟨2, "v", "h2", "x", ""⟩]
      "u" "q" "r").2.2.2.1 "q" "r",
   (save_history_frame [⟨1, "u", "h", "", ""⟩] "w" "q" "r").2.2.1⟩

/-- C1 counterexample: with the database unreachable, the `login` handler
skips its whole body and returns Python `None` — no response at all — which
Flask converts into a 500 internal error, so login does not degrade into a
normal response. -/
theorem login_unreachable_counterexample :
    login (fun _ _ => true) (fun _ _ _ => "") "" false [] "a@b" "pw" 0 =
      .noResponse ∧
    flaskStatus
      (login (fun _ _ => true) (fun _ _ _ => "") "" false [] "a@b" "pw" 0) =
      500 :=
  ⟨rfl, rfl⟩

/-- C1 (amended): with the database unreachable, `register` still answers
201 without crashing and `chat` still computes and returns its reply with
status 200 (ConversationState is independent of the store, and the durable
write is skipped); `login`, however, produces no response, which the
framework surfaces as a 500 internal error. -/
theorem store_unavailable_degradation (hashfn : String → String)
    (checkpw : String → String → Bool)
    (mac : String → String → Nat → String) (secret : String)
    (db : List DbRow) (mem : Mem) (email pw : String) (T : Nat)
    (g : String → Except Unit (List String)) (e : Option String) (m : String)
    (hm : m.isEmpty = false) :
    register hashfn false db email pw =
      (db, .response 201 "User registered successfully") ∧
    login checkpw mac secret false db email pw T = .noResponse ∧
    flaskStatus (login checkpw mac secret false db email pw T) = 500 ∧
    (chat g false mem db e (some m)).status = 200 ∧
    (chat g false mem db e (some m)).body = .resp (handle_message g e m) ∧
    (chat g false mem db e (some m)).db = db := by
  have hc := chat_components g false mem db e m hm
  exact ⟨rfl, rfl, rfl, hc.1, hc.2.1, hc.2.2⟩

/-- C1 (amended) witness: the degradation scenario on concrete inputs. -/
theorem store_unavailable_degradation_witness :
    register (fun s => s) false [] "a" "p" =
      ([], .response 201 "User registered successfully") ∧
    (chat (fun _ => .error ()) false [] [] (some "a") (some "Hello")).status =
      200 :=
  ⟨(store_unavailable_degradation (fun s => s) (fun _ _ => true)
      (fun _ _ _ => "") "sec" [] [] "a" "p" 0 (fun _ => .error ())
      (some "a") "Hello" rfl).1,
   (store_unavailable_degradation (fun s => s) (fun _ _ => true)
      (fun _ _ _ => "") "sec" [] [] "a" "p" 0 (fun _ => .error ())
      (some "a") "Hello" rfl).2.2.2.1⟩


